import Mathlib

/-!
Verification of the session-coordinator layer of `react-native-ssh-sftp`
(`src/sshclient.ts`).

The coordinator (class `SSHClient`) is embedded shallowly:

* Its mutable fields become the record `ClientState`; the `listeners` record
  is tracked by its domain (the set of event names that currently hold a
  subscription handle), kept as a duplicate-free list, and the `handlers`
  record is an association list mapping event names to handler identities
  (handlers are opaque functions in the source, so they are represented by
  numeric identities).
* A call to a native-bridge entry point (`RNSSHClient.*`) becomes a value of
  the inductive `NativeCmd`, and each method run records the list of commands
  it issued, in issue order.
* Every asynchronous method takes the outcome that the native layer will
  deliver to its one-shot completion callback as extra parameters
  (`error : Option Err`, plus a response value where the source callback has
  one) and returns a `Run`: the state after the completion callback has
  executed, the native commands issued, and the ordered caller-visible
  notifications (optional trailing-callback invocation, promise settlement).
* `Math.random()` is an explicit parameter (a rational in `[0, 1)`), and
  `Math.floor` is `Int.floor`.

Platform dispatch (`Platform.OS`) is over the two platforms the source
distinguishes, `ios` and everything else (`android`).
-/

namespace SSHClient

/-- The source's `Platform.OS` distinguishes only `'ios'` and `'android'`
(the latter standing for every non-iOS platform in `disconnectSFTP`'s
`Platform.OS !== 'ios'` test). -/
inductive RNPlatform where
  | ios
  | android
deriving DecidableEq, Repr

/-- Opaque native error value (`CBError` in the source, `any` at runtime). -/
abbrev Err := String

/-- Opaque event payload (`value: any` of a `NativeEvent`). -/
abbrev Value := String

/-- Opaque identity of a caller-registered handler function. -/
abbrev HandlerId := Nat

/-- Source: `PtyType` enum of the source. -/
inductive PtyType where
  | vanilla
  | vt100
  | vt102
  | vt220
  | ansi
  | xterm
deriving DecidableEq, Repr

/-- Source: `KeyPair` interface of the source. -/
structure KeyPair where
  privateKey : String
  publicKey : Option String
  passphrase : Option String
deriving DecidableEq, Repr

/-- Source: `PasswordOrKey = string | KeyPair`. -/
inductive PasswordOrKey where
  | password (password : String)
  | key (keyPair : KeyPair)
deriving DecidableEq, Repr

/-- Source: `LsResult` interface of the source. -/
structure LsResult where
  filename : String
  isDirectory : Bool
  modificationDate : String
  lastAccess : String
  fileSize : Int
  ownerUserID : Int
  ownerGroupID : Int
  flags : Int
deriving DecidableEq, Repr

/-- Source: `NativeEvent` interface of the source: events broadcast on the platform
event bus. -/
structure NativeEvent where
  name : String
  key : String
  value : Value
deriving DecidableEq, Repr

/-- The event-name constants `NATIVE_EVENT_SHELL`,
`NATIVE_EVENT_DOWNLOAD_PROGRESS`, `NATIVE_EVENT_UPLOAD_PROGRESS`. -/
def NATIVE_EVENT_SHELL : String := "Shell"

def NATIVE_EVENT_DOWNLOAD_PROGRESS : String := "DownloadProgress"

def NATIVE_EVENT_UPLOAD_PROGRESS : String := "UploadProgress"

/-- One invocation of a native-bridge entry point (`RNSSHClient.*`), with the
arguments the source passes (completion callbacks excluded: their outcome is
a parameter of the issuing method's embedding). -/
inductive NativeCmd where
  | connectToHostByPassword (host : String) (port : Int) (username : String)
      (password : String) (key : String)
  | connectToHostByKey (host : String) (port : Int) (username : String)
      (keyPair : KeyPair) (key : String)
  | connectToHost (host : String) (port : Int) (username : String)
      (passwordOrKey : PasswordOrKey) (key : String)
  | execute (command : String) (key : String)
  | startShell (key : String) (ptyType : PtyType)
  | writeToShell (command : String) (key : String)
  | closeShell (key : String)
  | connectSFTP (key : String)
  | sftpLs (path : String) (key : String)
  | sftpRename (oldPath : String) (newPath : String) (key : String)
  | sftpMkdir (path : String) (key : String)
  | sftpRm (path : String) (key : String)
  | sftpRmdir (path : String) (key : String)
  | sftpChmod (path : String) (permissions : Int) (key : String)
  | sftpUpload (localFilePath : String) (remoteFilePath : String) (key : String)
  | sftpCancelUpload (key : String)
  | sftpDownload (remoteFilePath : String) (localFilePath : String) (key : String)
  | sftpCancelDownload (key : String)
  | disconnectSFTP (key : String)
  | disconnect (key : String)
deriving DecidableEq, Repr

/-- The `_counters` field: in-flight transfer counts.  JavaScript numbers are
mutated with `++`/`--`, so they are embedded as integers (the source itself
never clamps them at zero). -/
structure Counters where
  download : Int
  upload : Int
deriving DecidableEq, Repr

/-- The `_activeStream` field: which streams are open. -/
structure ActiveStream where
  sftp : Bool
  shell : Bool
deriving DecidableEq, Repr

/-- The mutable state of one `SSHClient` instance.  `listeners` is the domain
of the `_listeners` record (a JS record holds at most one entry per name);
`handlers` is the `_handlers` record as an association list. -/
structure ClientState where
  key : String
  listeners : List String
  counters : Counters
  activeStream : ActiveStream
  handlers : List (String × HandlerId)
  host : String
  port : Int
  username : String
deriving DecidableEq, Repr

/-- Source: `getRandomClientKey`: `Math.floor((1 + Math.random()) * 0x10000)
.toString(16).substring(1)`.  `Math.random()` is the explicit argument
`random` (a rational in `[0, 1)`); `Number.prototype.toString(16)` of a
non-negative integer is its lowercase hex digit string, and `substring(1)`
drops its first character. -/
def getRandomClientKey (random : ℚ) : String :=
  String.mk ((Nat.toDigits 16 (Int.floor ((1 + random) * 0x10000)).toNat).drop 1)

/-- Source: `handleEvent`: dispatches a bus event to the handler registered under the
event's name, provided one exists and the event's `key` equals this
instance's `_key`; otherwise the event is dropped.  The dispatch itself
mutates no instance state, so the embedding returns only the list of handler
invocations it performs (handler identity paired with the delivered value).
-/
def handleEvent (s : ClientState) (event : NativeEvent) : List (HandlerId × Value) :=
  match s.handlers.lookup event.name with
  | some h => if s.key = event.key then [(h, event.value)] else []
  | none => []

/-- Assignment `m[k] = v` on a JS record embedded as an association list:
overwrite the entry for `k` if present, else append one. -/
def recordSet (m : List (String × HandlerId)) (k : String) (v : HandlerId) :
    List (String × HandlerId) :=
  if m.any (fun kv => kv.1 = k) then
    m.map (fun kv => if kv.1 = k then (k, v) else kv)
  else
    m ++ [(k, v)]

/-- Source: `on(eventName, handler)`: `this._handlers[eventName] = handler`.
(The source method is named `on`, which Lean reserves.) -/
def onEvent (s : ClientState) (eventName : String) (handler : HandlerId) : ClientState :=
  { s with handlers := recordSet s.handlers eventName handler }

/-- Source: `registerNativeListener(eventName)`: stores a fresh subscription under
`eventName` in `_listeners` (record assignment, so the domain gains the name
if absent and is unchanged if the name was already subscribed). -/
def registerNativeListener (s : ClientState) (eventName : String) : ClientState :=
  { s with
    listeners :=
      if eventName ∈ s.listeners then s.listeners else s.listeners ++ [eventName] }

/-- Source: `unregisterNativeListener(eventName)`: if a subscription is stored under
`eventName`, remove it from the bus and delete the record entry; otherwise do
nothing. -/
def unregisterNativeListener (s : ClientState) (eventName : String) : ClientState :=
  { s with listeners := s.listeners.erase eventName }

/-- The state built by the constructor before `this.connect(...)` runs:
a fresh correlation key from `getRandomClientKey`, empty listener and handler
records, zeroed counters, both streams closed, and the endpoint fields. -/
def initialState (host : String) (port : Int) (username : String) (random : ℚ) :
    ClientState :=
  { key := getRandomClientKey random
    listeners := []
    counters := { download := 0, upload := 0 }
    activeStream := { sftp := false, shell := false }
    handlers := []
    host := host
    port := port
    username := username }

/-- The native connect command issued by the private `connect` method:
Android dispatches on the credential shape
(`connectToHostByPassword`/`connectToHostByKey`), iOS always uses
`connectToHost`. -/
def connectCmd (p : RNPlatform) (s : ClientState) (passwordOrKey : PasswordOrKey) :
    NativeCmd :=
  match p with
  | .android =>
    match passwordOrKey with
    | .password pw => .connectToHostByPassword s.host s.port s.username pw s.key
    | .key k => .connectToHostByKey s.host s.port s.username k s.key
  | .ios => .connectToHost s.host s.port s.username passwordOrKey s.key

/-- One caller-visible notification of an asynchronous method: an invocation
of the optional trailing callback (with the error and, where the source
passes one, a response value), or the settlement of the returned promise. -/
inductive Notif (V : Type) where
  | cb (error : Option Err) (response : Option V)
  | resolve (result : V)
  | reject (error : Err)
deriving DecidableEq, Repr

/-- The observable outcome of running one asynchronous method to quiescence
(its native completion callback included): the instance state afterwards, the
native commands issued (in order), and the ordered caller-visible
notifications. -/
structure Run (V : Type) where
  state : ClientState
  cmds : List NativeCmd
  notifs : List (Notif V)
deriving DecidableEq, Repr

/-- The completion-callback tail every asynchronous method shares:
`if (callback) { callback(error, response?); } if (error) { return
reject(error); } resolve(result);` — `cbArg` is the response value the
source passes to the trailing callback (`none` for the `void`-result
methods, whose callbacks take only the error). -/
def completionNotifs {V : Type} (cbPresent : Bool) (error : Option Err)
    (cbArg : Option V) (result : V) : List (Notif V) :=
  (if cbPresent then [Notif.cb error cbArg] else []) ++
    (match error with
     | some e => [Notif.reject e]
     | none => [Notif.resolve result])

/-- Source: `connectWithKey`: constructs the instance (whose constructor issues the
native connect command with a key-pair credential built from `privateKey`
and `passphrase`), forwards the native error to the optional callback, then
rejects with it or resolves with the instance. -/
def connectWithKey (p : RNPlatform) (host : String) (port : Int) (username : String)
    (privateKey : String) (passphrase : Option String) (cbPresent : Bool)
    (random : ℚ) (error : Option Err) : Run ClientState :=
  let result := initialState host port username random
  { state := result
    cmds := [connectCmd p result
      (.key { privateKey := privateKey, publicKey := none, passphrase := passphrase })]
    notifs := completionNotifs cbPresent error none result }

/-- Source: `connectWithPassword`: as `connectWithKey`, with a password credential. -/
def connectWithPassword (p : RNPlatform) (host : String) (port : Int)
    (username : String) (password : String) (cbPresent : Bool)
    (random : ℚ) (error : Option Err) : Run ClientState :=
  let result := initialState host port username random
  { state := result
    cmds := [connectCmd p result (.password password)]
    notifs := completionNotifs cbPresent error none result }

/-- Source: `execute(command)`: issues the native execute command and runs the shared
completion tail with the response echoed to the callback. -/
def execute (s : ClientState) (command : String) (cbPresent : Bool)
    (error : Option Err) (response : String) : Run String :=
  { state := s
    cmds := [NativeCmd.execute command s.key]
    notifs := completionNotifs cbPresent error (some response) response }

/-- Source: `startShell(ptyType)`: short-circuits to `Promise.resolve('')` when the
shell is already open; otherwise subscribes the `"Shell"` listener, issues the
native start-shell command, and in the completion callback sets
`_activeStream.shell = true` only after the error check passed. -/
def startShell (s : ClientState) (ptyType : PtyType) (cbPresent : Bool)
    (error : Option Err) (response : String) : Run String :=
  if s.activeStream.shell then
    { state := s, cmds := [], notifs := [Notif.resolve ""] }
  else
    let s1 := registerNativeListener s NATIVE_EVENT_SHELL
    { state :=
        match error with
        | some _ => s1
        | none => { s1 with activeStream := { s1.activeStream with shell := true } }
      cmds := [NativeCmd.startShell s.key ptyType]
      notifs := completionNotifs cbPresent error (some response) response }

/-- Outcome of one of the private `checkShell`/`checkSFTP` helpers: state and
commands of the auto-open attempt, the notifications its `.catch` produced
(an invocation of the enclosing operation's callback on failure), and either
the error it re-threw or the value it resolved with. -/
structure CheckRun (V W : Type) where
  state : ClientState
  cmds : List NativeCmd
  notifs : List (Notif V)
  outcome : Sum Err W
deriving DecidableEq, Repr

/-- Source: `checkShell(callback)`: resolves `''` at once when the shell is open;
otherwise runs `startShell(PtyType.VANILLA)` (with no callback of its own),
mapping a successful response `res` to `res ? res + '\n' : ''` and, on
failure, invoking the enclosing operation's callback with the error and
re-throwing it. -/
def checkShell (V : Type) (s : ClientState) (cbPresent : Bool)
    (startErr : Option Err) (startResp : String) : CheckRun V String :=
  if s.activeStream.shell then
    { state := s, cmds := [], notifs := [], outcome := Sum.inr "" }
  else
    let r := startShell s PtyType.vanilla false startErr startResp
    match startErr with
    | some e =>
      { state := r.state
        cmds := r.cmds
        notifs := if cbPresent then [Notif.cb (some e) none] else []
        outcome := Sum.inl e }
    | none =>
      { state := r.state
        cmds := r.cmds
        notifs := []
        outcome := Sum.inr (if startResp = "" then "" else startResp ++ "\n") }

/-- Source: `writeToShell(command)`: `checkShell(callback)` first; when it re-threw,
the returned promise rejects with that error; otherwise the native write
command is issued and the shared completion tail runs. -/
def writeToShell (s : ClientState) (command : String) (cbPresent : Bool)
    (startErr : Option Err) (startResp : String)
    (error : Option Err) (response : String) : Run String :=
  let c := checkShell String s cbPresent startErr startResp
  match c.outcome with
  | Sum.inl e => { state := c.state, cmds := c.cmds, notifs := c.notifs ++ [Notif.reject e] }
  | Sum.inr _ =>
    { state := c.state
      cmds := c.cmds ++ [NativeCmd.writeToShell command s.key]
      notifs := c.notifs ++ completionNotifs cbPresent error (some response) response }

/-- Source: `closeShell()`: synchronous — unsubscribe the `"Shell"` listener, issue the
fire-and-forget native close command, set `_activeStream.shell = false`. -/
def closeShell (s : ClientState) : ClientState × List NativeCmd :=
  let s1 := unregisterNativeListener s NATIVE_EVENT_SHELL
  ({ s1 with activeStream := { s1.activeStream with shell := false } },
    [NativeCmd.closeShell s.key])

/-- Source: `connectSFTP(callback)`: short-circuits to `Promise.resolve()` when
`_activeStream.sftp` is already true.  Otherwise issues the native
SFTP-connect command; its completion callback sets `_activeStream.sftp =
true` and subscribes both progress listeners BEFORE inspecting the error,
then runs the shared completion tail. -/
def connectSFTP (s : ClientState) (cbPresent : Bool) (error : Option Err) :
    Run Unit :=
  if s.activeStream.sftp then
    { state := s, cmds := [], notifs := [Notif.resolve ()] }
  else
    let s1 := { s with activeStream := { s.activeStream with sftp := true } }
    let s2 := registerNativeListener
      (registerNativeListener s1 NATIVE_EVENT_DOWNLOAD_PROGRESS)
      NATIVE_EVENT_UPLOAD_PROGRESS
    { state := s2
      cmds := [NativeCmd.connectSFTP s.key]
      notifs := completionNotifs cbPresent error none () }

/-- Source: `checkSFTP(callback)`: resolves at once when SFTP is open; otherwise runs
`connectSFTP()` (with no callback of its own) and, on failure, invokes the
enclosing operation's callback with the error and re-throws it. -/
def checkSFTP (V : Type) (s : ClientState) (cbPresent : Bool)
    (connErr : Option Err) : CheckRun V Unit :=
  if s.activeStream.sftp then
    { state := s, cmds := [], notifs := [], outcome := Sum.inr () }
  else
    let r := connectSFTP s false connErr
    match connErr with
    | some e =>
      { state := r.state
        cmds := r.cmds
        notifs := if cbPresent then [Notif.cb (some e) none] else []
        outcome := Sum.inl e }
    | none =>
      { state := r.state, cmds := r.cmds, notifs := [], outcome := Sum.inr () }

/-- Source: `sftpLs(path)`: `checkSFTP` gate, then the native ls command with the
shared completion tail (response echoed to the callback). -/
def sftpLs (s : ClientState) (path : String) (cbPresent : Bool)
    (connErr : Option Err) (error : Option Err) (response : LsResult) :
    Run LsResult :=
  let c := checkSFTP LsResult s cbPresent connErr
  match c.outcome with
  | Sum.inl e => { state := c.state, cmds := c.cmds, notifs := c.notifs ++ [Notif.reject e] }
  | Sum.inr _ =>
    { state := c.state
      cmds := c.cmds ++ [NativeCmd.sftpLs path s.key]
      notifs := c.notifs ++ completionNotifs cbPresent error (some response) response }

/-- Source: `sftpRename(oldPath, newPath)`: `checkSFTP` gate, then the native rename
command with the shared completion tail (callback takes only the error). -/
def sftpRename (s : ClientState) (oldPath newPath : String) (cbPresent : Bool)
    (connErr : Option Err) (error : Option Err) : Run Unit :=
  let c := checkSFTP Unit s cbPresent connErr
  match c.outcome with
  | Sum.inl e => { state := c.state, cmds := c.cmds, notifs := c.notifs ++ [Notif.reject e] }
  | Sum.inr _ =>
    { state := c.state
      cmds := c.cmds ++ [NativeCmd.sftpRename oldPath newPath s.key]
      notifs := c.notifs ++ completionNotifs cbPresent error none () }

/-- Source: `sftpMkdir(path)`. -/
def sftpMkdir (s : ClientState) (path : String) (cbPresent : Bool)
    (connErr : Option Err) (error : Option Err) : Run Unit :=
  let c := checkSFTP Unit s cbPresent connErr
  match c.outcome with
  | Sum.inl e => { state := c.state, cmds := c.cmds, notifs := c.notifs ++ [Notif.reject e] }
  | Sum.inr _ =>
    { state := c.state
      cmds := c.cmds ++ [NativeCmd.sftpMkdir path s.key]
      notifs := c.notifs ++ completionNotifs cbPresent error none () }

/-- Source: `sftpRm(path)`. -/
def sftpRm (s : ClientState) (path : String) (cbPresent : Bool)
    (connErr : Option Err) (error : Option Err) : Run Unit :=
  let c := checkSFTP Unit s cbPresent connErr
  match c.outcome with
  | Sum.inl e => { state := c.state, cmds := c.cmds, notifs := c.notifs ++ [Notif.reject e] }
  | Sum.inr _ =>
    { state := c.state
      cmds := c.cmds ++ [NativeCmd.sftpRm path s.key]
      notifs := c.notifs ++ completionNotifs cbPresent error none () }

/-- Source: `sftpRmdir(path)`. -/
def sftpRmdir (s : ClientState) (path : String) (cbPresent : Bool)
    (connErr : Option Err) (error : Option Err) : Run Unit :=
  let c := checkSFTP Unit s cbPresent connErr
  match c.outcome with
  | Sum.inl e => { state := c.state, cmds := c.cmds, notifs := c.notifs ++ [Notif.reject e] }
  | Sum.inr _ =>
    { state := c.state
      cmds := c.cmds ++ [NativeCmd.sftpRmdir path s.key]
      notifs := c.notifs ++ completionNotifs cbPresent error none () }

/-- Source: `sftpChmod(path, permissions)`. -/
def sftpChmod (s : ClientState) (path : String) (permissions : Int)
    (cbPresent : Bool) (connErr : Option Err) (error : Option Err) : Run Unit :=
  let c := checkSFTP Unit s cbPresent connErr
  match c.outcome with
  | Sum.inl e => { state := c.state, cmds := c.cmds, notifs := c.notifs ++ [Notif.reject e] }
  | Sum.inr _ =>
    { state := c.state
      cmds := c.cmds ++ [NativeCmd.sftpChmod path permissions s.key]
      notifs := c.notifs ++ completionNotifs cbPresent error none () }

/-- Source: `++this._counters.upload` — the increment immediately before the native
upload command is issued. -/
def sftpUploadIssue (s : ClientState) : ClientState :=
  { s with counters := { s.counters with upload := s.counters.upload + 1 } }

/-- Source: `--this._counters.upload` — the first statement of the upload completion
callback, executed before the error is inspected (so on success and failure
alike). -/
def sftpUploadComplete (s : ClientState) : ClientState :=
  { s with counters := { s.counters with upload := s.counters.upload - 1 } }

/-- Source: `++this._counters.download`. -/
def sftpDownloadIssue (s : ClientState) : ClientState :=
  { s with counters := { s.counters with download := s.counters.download + 1 } }

/-- Source: `--this._counters.download`. -/
def sftpDownloadComplete (s : ClientState) : ClientState :=
  { s with counters := { s.counters with download := s.counters.download - 1 } }

/-- Source: `sftpUpload(localFilePath, remoteFilePath)`: `checkSFTP` gate; then the
upload counter is incremented, the native upload command issued, and the
completion callback decrements the counter before the shared tail. -/
def sftpUpload (s : ClientState) (localFilePath remoteFilePath : String)
    (cbPresent : Bool) (connErr : Option Err) (error : Option Err) : Run Unit :=
  let c := checkSFTP Unit s cbPresent connErr
  match c.outcome with
  | Sum.inl e => { state := c.state, cmds := c.cmds, notifs := c.notifs ++ [Notif.reject e] }
  | Sum.inr _ =>
    { state := sftpUploadComplete (sftpUploadIssue c.state)
      cmds := c.cmds ++ [NativeCmd.sftpUpload localFilePath remoteFilePath s.key]
      notifs := c.notifs ++ completionNotifs cbPresent error none () }

/-- Source: `sftpCancelUpload()`: issues the native cancel command only when
`_counters.upload > 0`; touches no state either way. -/
def sftpCancelUpload (s : ClientState) : ClientState × List NativeCmd :=
  if s.counters.upload > 0 then (s, [NativeCmd.sftpCancelUpload s.key]) else (s, [])

/-- Source: `sftpDownload(remoteFilePath, localFilePath)`: as `sftpUpload` for the
download counter; resolves with the response string. -/
def sftpDownload (s : ClientState) (remoteFilePath localFilePath : String)
    (cbPresent : Bool) (connErr : Option Err) (error : Option Err)
    (response : String) : Run String :=
  let c := checkSFTP String s cbPresent connErr
  match c.outcome with
  | Sum.inl e => { state := c.state, cmds := c.cmds, notifs := c.notifs ++ [Notif.reject e] }
  | Sum.inr _ =>
    { state := sftpDownloadComplete (sftpDownloadIssue c.state)
      cmds := c.cmds ++ [NativeCmd.sftpDownload remoteFilePath localFilePath s.key]
      notifs := c.notifs ++ completionNotifs cbPresent error (some response) response }

/-- Source: `sftpCancelDownload()`: issues the native cancel command only when
`_counters.download > 0`; touches no state either way. -/
def sftpCancelDownload (s : ClientState) : ClientState × List NativeCmd :=
  if s.counters.download > 0 then (s, [NativeCmd.sftpCancelDownload s.key]) else (s, [])

/-- Source: `disconnectSFTP()`: on every platform but iOS, unsubscribes both progress
listeners, issues the native SFTP-disconnect command and clears the flag; on
iOS the whole body is skipped (`Platform.OS !== 'ios'`). -/
def disconnectSFTP (p : RNPlatform) (s : ClientState) : ClientState × List NativeCmd :=
  match p with
  | .ios => (s, [])
  | .android =>
    let s1 := unregisterNativeListener s NATIVE_EVENT_DOWNLOAD_PROGRESS
    let s2 := unregisterNativeListener s1 NATIVE_EVENT_UPLOAD_PROGRESS
    ({ s2 with activeStream := { s2.activeStream with sftp := false } },
      [NativeCmd.disconnectSFTP s.key])

/-- Source: `disconnect()`: runs `closeShell()` when the shell is open, then
`disconnectSFTP()` when SFTP is open, then issues the native disconnect
command unconditionally. -/
def disconnect (p : RNPlatform) (s : ClientState) : ClientState × List NativeCmd :=
  let (s1, c1) := if s.activeStream.shell then closeShell s else (s, [])
  let (s2, c2) := if s1.activeStream.sftp then disconnectSFTP p s1 else (s1, [])
  (s2, c1 ++ c2 ++ [NativeCmd.disconnect s.key])

/-! ## Interleaved-transfer trace model

`sftpUpload`/`sftpDownload` calls may overlap: each issued native command's
completion callback fires later, in an order chosen by the native layer.  The
four counter mutations the source performs are exactly `sftpUploadIssue`,
`sftpUploadComplete`, `sftpDownloadIssue`, `sftpDownloadComplete`; a trace is
a list of those, and a completion event carries the (irrelevant to the
counter) error of its callback. -/

/-- One counter-relevant step of an interleaved transfer history. -/
inductive TransferEvent where
  | uploadIssue
  | uploadComplete (error : Option Err)
  | downloadIssue
  | downloadComplete (error : Option Err)
deriving DecidableEq, Repr

/-- The state mutation one transfer step performs (the completion decrement is
the same on the success and the failure path of the callback). -/
def transferStep (s : ClientState) : TransferEvent → ClientState
  | .uploadIssue => sftpUploadIssue s
  | .uploadComplete _ => sftpUploadComplete s
  | .downloadIssue => sftpDownloadIssue s
  | .downloadComplete _ => sftpDownloadComplete s

/-- Runs a transfer history. -/
def runTransfers (s : ClientState) : List TransferEvent → ClientState
  | [] => s
  | e :: t => runTransfers (transferStep s e) t

/-- Number of upload commands issued in a history. -/
def countUploadIssues (t : List TransferEvent) : Nat :=
  (t.filter fun e => match e with | .uploadIssue => true | _ => false).length

/-- Number of upload completion callbacks fired in a history. -/
def countUploadCompletes (t : List TransferEvent) : Nat :=
  (t.filter fun e => match e with | .uploadComplete _ => true | _ => false).length

/-- Number of download commands issued in a history. -/
def countDownloadIssues (t : List TransferEvent) : Nat :=
  (t.filter fun e => match e with | .downloadIssue => true | _ => false).length

/-- Number of download completion callbacks fired in a history. -/
def countDownloadCompletes (t : List TransferEvent) : Nat :=
  (t.filter fun e => match e with | .downloadComplete _ => true | _ => false).length

/-- A history is causal when no completion callback fires before its command
was issued: in every prefix, completions of each kind do not outnumber
issues of that kind (the native layer fires exactly one completion per
issued command).  Quantifying over prefix lengths up to the history's length
suffices — longer prefixes repeat the full history — and keeps the predicate
decidable. -/
def CausalHistory (t : List TransferEvent) : Prop :=
  ∀ n ∈ List.range (t.length + 1),
    countUploadCompletes (t.take n) ≤ countUploadIssues (t.take n) ∧
    countDownloadCompletes (t.take n) ≤ countDownloadIssues (t.take n)

/-! ## startShell call-sequence model

A sequence of `startShell` calls on one coordinator: each call carries its
arguments and the outcome its native completion callback would deliver (used
only if the call actually issues the native command). -/

/-- Arguments and native outcome of one `startShell` call in a sequence. -/
structure ShellCall where
  ptyType : PtyType
  cbPresent : Bool
  error : Option Err
  response : String
deriving DecidableEq, Repr

/-- Runs a sequence of `startShell` calls, returning the final state and the
total number of native commands issued across the sequence. -/
def runStartShellSeq (s : ClientState) : List ShellCall → ClientState × Nat
  | [] => (s, 0)
  | c :: rest =>
    let r := startShell s c.ptyType c.cbPresent c.error c.response
    let (s', n) := runStartShellSeq r.state rest
    (s', r.cmds.length + n)

/-! ## Event-dispatch model -/

/-- Delivery of a list of bus events to one coordinator's dispatch: the
handler invocations `handleEvent` performs, concatenated in delivery order
(dispatch mutates no state, so the state threads through unchanged). -/
def dispatchAll (s : ClientState) (events : List NativeEvent) :
    List (HandlerId × Value) :=
  match events with
  | [] => []
  | e :: rest => handleEvent s e ++ dispatchAll s rest

/-! ## Concrete states for witnesses and counterexamples -/

/-- A freshly constructed coordinator: both streams closed, no listeners, no
handlers, zero counters. -/
def sampleFresh : ClientState :=
  { key := "8000"
    listeners := []
    counters := { download := 0, upload := 0 }
    activeStream := { sftp := false, shell := false }
    handlers := []
    host := "example.com"
    port := 22
    username := "alice" }

/-- A coordinator with an open shell and an open SFTP channel, holding all
three listener subscriptions. -/
def sampleOpen : ClientState :=
  { key := "8000"
    listeners := [NATIVE_EVENT_SHELL, NATIVE_EVENT_DOWNLOAD_PROGRESS,
      NATIVE_EVENT_UPLOAD_PROGRESS]
    counters := { download := 0, upload := 0 }
    activeStream := { sftp := true, shell := true }
    handlers := []
    host := "example.com"
    port := 22
    username := "alice" }

/-- A coordinator with one registered `"Shell"` handler. -/
def sampleHandler : ClientState :=
  { key := "8000"
    listeners := [NATIVE_EVENT_SHELL]
    counters := { download := 0, upload := 0 }
    activeStream := { sftp := false, shell := true }
    handlers := [(NATIVE_EVENT_SHELL, 7)]
    host := "example.com"
    port := 22
    username := "alice" }

/-! ## Helper lemmas -/

theorem mem_registerNativeListener_self (s : ClientState) (n : String) :
    n ∈ (registerNativeListener s n).listeners := by
  by_cases h : n ∈ s.listeners <;> simp [registerNativeListener, h]

theorem mem_registerNativeListener_of_mem {s : ClientState} {n : String}
    (m : String) (h : n ∈ s.listeners) :
    n ∈ (registerNativeListener s m).listeners := by
  by_cases hm : m ∈ s.listeners <;> simp [registerNativeListener, hm, h]

/-- Once the shell flag is up, a whole sequence of further `startShell` calls
neither changes the state nor issues any native command. -/
theorem runStartShellSeq_open (s : ClientState) (h : s.activeStream.shell = true) :
    ∀ calls : List ShellCall, runStartShellSeq s calls = (s, 0) := by
  intro calls
  induction calls with
  | nil => rfl
  | cons c rest ih => simp [runStartShellSeq, startShell, h, ih]

/-- An event whose key is not this coordinator's key is dropped. -/
theorem handleEvent_ne_key (s : ClientState) (e : NativeEvent)
    (h : s.key ≠ e.key) : handleEvent s e = [] := by
  unfold handleEvent
  cases s.handlers.lookup e.name with
  | none => rfl
  | some hh => simp [h]

/-- Dropping the foreign-keyed events from a delivery changes nothing. -/
theorem dispatchAll_filter_key (s : ClientState) (events : List NativeEvent) :
    dispatchAll s events = dispatchAll s (events.filter fun ev => s.key = ev.key) := by
  induction events with
  | nil => rfl
  | cons e rest ih =>
    by_cases h : s.key = e.key
    · simp [dispatchAll, List.filter_cons, h, ih]
    · simp [dispatchAll, List.filter_cons, h, handleEvent_ne_key s e h, ih]

/-! ## Claims -/

/-- C3: in any sequence of `startShell` calls on one coordinator, a call made
while `shellOpen` is false issues exactly one native start-shell command,
subscribes the `"Shell"` listener and (its completion being successful) sets
`shellOpen = true`; every call made while `shellOpen` is true returns an
immediately-resolved empty string, no state change and no native command, so
a sequence opening with one successful call issues exactly one native
command in total; `closeShell` resets `shellOpen` to false. -/
theorem startShell_only_first_issues (s : ClientState) (c : ShellCall)
    (rest : List ShellCall) (hclosed : s.activeStream.shell = false)
    (hsucc : c.error = none) :
    (startShell s c.ptyType c.cbPresent c.error c.response).cmds
      = [NativeCmd.startShell s.key c.ptyType] ∧
    (startShell s c.ptyType c.cbPresent c.error c.response).state.activeStream.shell
      = true ∧
    NATIVE_EVENT_SHELL
      ∈ (startShell s c.ptyType c.cbPresent c.error c.response).state.listeners ∧
    (∀ s2 : ClientState, ∀ c2 : ShellCall, s2.activeStream.shell = true →
      startShell s2 c2.ptyType c2.cbPresent c2.error c2.response
        = { state := s2, cmds := [], notifs := [Notif.resolve ""] }) ∧
    (runStartShellSeq s (c :: rest)).2 = 1 ∧
    (∀ s2 : ClientState, (closeShell s2).1.activeStream.shell = false) := by
  have hshell :
      (startShell s c.ptyType c.cbPresent c.error c.response).state.activeStream.shell
        = true := by
    simp [startShell, hclosed, hsucc, registerNativeListener]
  refine ⟨?_, hshell, ?_, ?_, ?_, ?_⟩
  · simp [startShell, hclosed, hsucc]
  · simp only [startShell, hclosed, hsucc, Bool.false_eq_true, if_false]
    exact mem_registerNativeListener_self s _
  · intro s2 c2 h2
    simp [startShell, h2]
  · have hopen := runStartShellSeq_open _ hshell rest
    simp only [runStartShellSeq, hopen]
    simp [startShell, hclosed, hsucc]
  · intro s2
    simp [closeShell]

theorem startShell_only_first_issues_witness :
    sampleFresh.activeStream.shell = false ∧
    (⟨PtyType.xterm, true, none, "login banner"⟩ : ShellCall).error = none ∧
    (runStartShellSeq sampleFresh
      [⟨PtyType.xterm, true, none, "login banner"⟩,
       ⟨PtyType.vt100, false, none, "other"⟩,
       ⟨PtyType.vanilla, true, some "late error", "x"⟩]).2 = 1 :=
  ⟨by decide, by decide,
    (startShell_only_first_issues sampleFresh
      ⟨PtyType.xterm, true, none, "login banner"⟩
      [⟨PtyType.vt100, false, none, "other"⟩,
       ⟨PtyType.vanilla, true, some "late error", "x"⟩]
      (by decide) (by decide)).2.2.2.2.1⟩

/-- C7: the coordinator's dispatch drops every bus event whose `key` differs
from its correlation key and every event without a registered handler for its
name (invoking no handler and, by the shape of `handleEvent`, touching no
state); consequently a delivery produces exactly the invocations of its
own-key sub-delivery, so two deliveries that agree on the events keyed to
this coordinator produce identical handler invocations. -/
theorem event_key_isolation (s : ClientState) (e : NativeEvent)
    (events events2 : List NativeEvent) :
    (e.key ≠ s.key → handleEvent s e = []) ∧
    (s.handlers.lookup e.name = none → handleEvent s e = []) ∧
    (dispatchAll s events = dispatchAll s (events.filter fun ev => s.key = ev.key)) ∧
    ((events.filter fun ev => s.key = ev.key)
        = (events2.filter fun ev => s.key = ev.key) →
      dispatchAll s events = dispatchAll s events2) := by
  refine ⟨?_, ?_, dispatchAll_filter_key s events, ?_⟩
  · intro h
    exact handleEvent_ne_key s e (Ne.symm h)
  · intro h
    unfold handleEvent
    rw [h]
  · intro h
    rw [dispatchAll_filter_key s events, dispatchAll_filter_key s events2, h]

theorem event_key_isolation_witness :
    ({ name := NATIVE_EVENT_SHELL, key := "beef", value := "x" } : NativeEvent).key
        ≠ sampleHandler.key ∧
    handleEvent sampleHandler { name := NATIVE_EVENT_SHELL, key := "beef", value := "x" }
        = [] ∧
    handleEvent sampleHandler { name := "NoSuchEvent", key := "8000", value := "x" }
        = [] ∧
    handleEvent sampleHandler { name := NATIVE_EVENT_SHELL, key := "8000", value := "x" }
        = [(7, "x")] :=
  ⟨by decide,
    (event_key_isolation sampleHandler
      { name := NATIVE_EVENT_SHELL, key := "beef", value := "x" } [] []).1 (by decide),
    (event_key_isolation sampleHandler
      { name := "NoSuchEvent", key := "8000", value := "x" } [] []).2.1 (by decide),
    by decide⟩

/-- C8: `sftpCancelUpload` (resp. `sftpCancelDownload`) issues the native
cancel command exactly when `uploadCount` (resp. `downloadCount`) is
positive at the time of the call, and never changes any state — in
particular the counters are only ever decremented by an in-flight transfer's
own completion callback. -/
theorem sftpCancel_iff_positive (s : ClientState) :
    (sftpCancelUpload s).1 = s ∧
    ((sftpCancelUpload s).2 = [NativeCmd.sftpCancelUpload s.key]
      ↔ 0 < s.counters.upload) ∧
    ((sftpCancelUpload s).2 = [] ↔ ¬0 < s.counters.upload) ∧
    (sftpCancelDownload s).1 = s ∧
    ((sftpCancelDownload s).2 = [NativeCmd.sftpCancelDownload s.key]
      ↔ 0 < s.counters.download) ∧
    ((sftpCancelDownload s).2 = [] ↔ ¬0 < s.counters.download) := by
  by_cases hu : 0 < s.counters.upload <;> by_cases hd : 0 < s.counters.download <;>
    simp [sftpCancelUpload, sftpCancelDownload, hu, hd]

/-- C10: the teardown operations `closeShell`, `disconnectSFTP` and
`disconnect` remove only listener subscriptions; on either platform they
leave the `handlers` map of user-registered event handlers exactly as it
was. -/
theorem teardown_preserves_handlers (p : RNPlatform) (s : ClientState) :
    (closeShell s).1.handlers = s.handlers ∧
    (disconnectSFTP p s).1.handlers = s.handlers ∧
    (disconnect p s).1.handlers = s.handlers := by
  cases p <;>
    by_cases h1 : s.activeStream.shell <;> by_cases h2 : s.activeStream.sftp <;>
      simp_all [closeShell, disconnectSFTP, disconnect, unregisterNativeListener]

/-- C1 counterexample: on a fresh coordinator (`sftpOpen = false`), a
`connectSFTP` whose native completion callback delivers an error leaves
`sftpOpen = true` and both progress listeners subscribed — not, as the claim
states, `sftpOpen = false` with no listener subscribed — while the promise
rejects with the error. -/
theorem connectSFTP_error_counterexample :
    sampleFresh.activeStream.sftp = false ∧
    (connectSFTP sampleFresh false (some "connect failed")).state.activeStream.sftp
      = true ∧
    NATIVE_EVENT_DOWNLOAD_PROGRESS
      ∈ (connectSFTP sampleFresh false (some "connect failed")).state.listeners ∧
    NATIVE_EVENT_UPLOAD_PROGRESS
      ∈ (connectSFTP sampleFresh false (some "connect failed")).state.listeners ∧
    (connectSFTP sampleFresh false (some "connect failed")).notifs
      = [Notif.reject "connect failed"] := by
  decide

/-- C1 amended: on a coordinator with `sftpOpen = false`, `connectSFTP`
issues the native SFTP-connect command, and its completion callback sets
`sftpOpen = true` and subscribes the `"DownloadProgress"` and
`"UploadProgress"` listeners regardless of whether it carries an error; the
error (when present) is still forwarded to the optional caller callback and
the promise rejects with it, otherwise the promise resolves. -/
theorem connectSFTP_amended (s : ClientState) (cbPresent : Bool)
    (error : Option Err) (h : s.activeStream.sftp = false) :
    (connectSFTP s cbPresent error).cmds = [NativeCmd.connectSFTP s.key] ∧
    (connectSFTP s cbPresent error).state.activeStream.sftp = true ∧
    NATIVE_EVENT_DOWNLOAD_PROGRESS ∈ (connectSFTP s cbPresent error).state.listeners ∧
    NATIVE_EVENT_UPLOAD_PROGRESS ∈ (connectSFTP s cbPresent error).state.listeners ∧
    (∀ e, error = some e →
      (connectSFTP s cbPresent error).notifs
        = (if cbPresent then [Notif.cb (some e) none] else []) ++ [Notif.reject e]) ∧
    (error = none →
      (connectSFTP s cbPresent error).notifs
        = (if cbPresent then [Notif.cb none none] else []) ++ [Notif.resolve ()]) := by
  refine ⟨?_, ?_, ?_, ?_, ?_, ?_⟩
  · simp [connectSFTP, h]
  · simp [connectSFTP, h, registerNativeListener]
  · simp only [connectSFTP, h, Bool.false_eq_true, if_false]
    exact mem_registerNativeListener_of_mem _ (mem_registerNativeListener_self _ _)
  · simp only [connectSFTP, h, Bool.false_eq_true, if_false]
    exact mem_registerNativeListener_self _ _
  · intro e he
    subst he
    simp [connectSFTP, h, completionNotifs]
  · intro he
    subst he
    simp [connectSFTP, h, completionNotifs]

theorem connectSFTP_amended_witness :
    sampleFresh.activeStream.sftp = false ∧
    (connectSFTP sampleFresh true (some "boom")).cmds
      = [NativeCmd.connectSFTP sampleFresh.key] :=
  ⟨by decide, (connectSFTP_amended sampleFresh true (some "boom") (by decide)).1⟩

/-- C2 counterexample: on iOS, `disconnect()` on a coordinator with an open
shell and an open SFTP channel leaves `sftpOpen = true`, leaves both
progress-listener subscriptions in place, and issues no native
SFTP-disconnect command (only close-shell and disconnect) — contradicting
the claim for every platform. -/
theorem disconnect_ios_counterexample :
    sampleOpen.activeStream.shell = true ∧
    sampleOpen.activeStream.sftp = true ∧
    (disconnect RNPlatform.ios sampleOpen).1.activeStream.sftp = true ∧
    NATIVE_EVENT_DOWNLOAD_PROGRESS ∈ (disconnect RNPlatform.ios sampleOpen).1.listeners ∧
    NATIVE_EVENT_UPLOAD_PROGRESS ∈ (disconnect RNPlatform.ios sampleOpen).1.listeners ∧
    (disconnect RNPlatform.ios sampleOpen).2
      = [NativeCmd.closeShell "8000", NativeCmd.disconnect "8000"] := by
  decide

/-- C2 amended: `disconnect()` on a coordinator with an open shell and an
open SFTP channel always sets `shellOpen = false`, removes the `"Shell"`
subscription and issues the native disconnect command; but the SFTP teardown
happens only off iOS.  On Android it additionally sets `sftpOpen = false`,
removes both progress subscriptions and issues the native SFTP-disconnect
command; on iOS `sftpOpen` remains true, the progress subscriptions remain,
and no SFTP-disconnect command is issued.  (`listeners` is a record, hence
duplicate-free.) -/
theorem disconnect_amended (p : RNPlatform) (s : ClientState)
    (hsh : s.activeStream.shell = true) (hsf : s.activeStream.sftp = true)
    (hnd : s.listeners.Nodup) :
    (disconnect p s).1.activeStream.shell = false ∧
    NATIVE_EVENT_SHELL ∉ (disconnect p s).1.listeners ∧
    (match p with
     | .android =>
        (disconnect p s).1.activeStream.sftp = false ∧
        NATIVE_EVENT_DOWNLOAD_PROGRESS ∉ (disconnect p s).1.listeners ∧
        NATIVE_EVENT_UPLOAD_PROGRESS ∉ (disconnect p s).1.listeners ∧
        (disconnect p s).2
          = [NativeCmd.closeShell s.key, NativeCmd.disconnectSFTP s.key,
             NativeCmd.disconnect s.key]
     | .ios =>
        (disconnect p s).1.activeStream.sftp = true ∧
        (disconnect p s).1.listeners = s.listeners.erase NATIVE_EVENT_SHELL ∧
        (disconnect p s).2
          = [NativeCmd.closeShell s.key, NativeCmd.disconnect s.key]) := by
  have h1 : (s.listeners.erase NATIVE_EVENT_SHELL).Nodup := hnd.erase _
  have h2 : ((s.listeners.erase NATIVE_EVENT_SHELL).erase
      NATIVE_EVENT_DOWNLOAD_PROGRESS).Nodup := h1.erase _
  have h3 : (((s.listeners.erase NATIVE_EVENT_SHELL).erase
      NATIVE_EVENT_DOWNLOAD_PROGRESS).erase NATIVE_EVENT_UPLOAD_PROGRESS).Nodup :=
    h2.erase _
  cases p <;>
    simp_all [disconnect, closeShell, disconnectSFTP, unregisterNativeListener,
      List.Nodup.mem_erase_iff, NATIVE_EVENT_SHELL, NATIVE_EVENT_DOWNLOAD_PROGRESS,
      NATIVE_EVENT_UPLOAD_PROGRESS]

theorem disconnect_amended_witness :
    sampleOpen.activeStream.shell = true ∧
    sampleOpen.activeStream.sftp = true ∧
    sampleOpen.listeners.Nodup ∧
    NATIVE_EVENT_SHELL ∉ (disconnect RNPlatform.android sampleOpen).1.listeners :=
  ⟨by decide, by decide, by decide,
    (disconnect_amended RNPlatform.android sampleOpen
      (by decide) (by decide) (by decide)).2.1⟩

/-- C5: on a coordinator with `sftpOpen = false`, when `sftpLs` is called and
the auto-issued native `connectSFTP` completion delivers `someError`, the
only native command issued is the SFTP-connect one — in particular no native
`sftpLs` command is ever issued for that call — the optional caller callback
receives `someError`, and the promise rejects with exactly `someError`. -/
theorem sftpLs_connect_failure (s : ClientState) (path : String)
    (cbPresent : Bool) (someError : Err) (lsErr : Option Err) (lsResp : LsResult)
    (h : s.activeStream.sftp = false) :
    (sftpLs s path cbPresent (some someError) lsErr lsResp).cmds
      = [NativeCmd.connectSFTP s.key] ∧
    (∀ pa k, NativeCmd.sftpLs pa k
      ∉ (sftpLs s path cbPresent (some someError) lsErr lsResp).cmds) ∧
    (sftpLs s path cbPresent (some someError) lsErr lsResp).notifs
      = (if cbPresent then [Notif.cb (some someError) none] else [])
        ++ [Notif.reject someError] := by
  refine ⟨?_, ?_, ?_⟩ <;>
    simp [sftpLs, checkSFTP, connectSFTP, h]

theorem sftpLs_connect_failure_witness :
    sampleFresh.activeStream.sftp = false ∧
    (sftpLs sampleFresh "/tmp" true (some "no sftp") none
        ⟨"f", false, "", "", 0, 0, 0, 0⟩).notifs
      = [Notif.cb (some "no sftp") none, Notif.reject "no sftp"] :=
  ⟨by decide,
    by
      have := (sftpLs_connect_failure sampleFresh "/tmp" true "no sftp" none
        ⟨"f", false, "", "", 0, 0, 0, 0⟩ (by decide)).2.2
      simpa using this⟩

/-- Running a transfer history adds the number of upload issues and subtracts
the number of upload completions to/from the upload counter. -/
theorem runTransfers_upload_count (t : List TransferEvent) :
    ∀ s : ClientState, (runTransfers s t).counters.upload
      = s.counters.upload + countUploadIssues t - countUploadCompletes t := by
  induction t with
  | nil => intro s; simp [runTransfers, countUploadIssues, countUploadCompletes]
  | cons e rest ih =>
    intro s
    cases e <;>
      (simp only [runTransfers, transferStep]
       rw [ih]
       simp [sftpUploadIssue, sftpUploadComplete, sftpDownloadIssue,
         sftpDownloadComplete, countUploadIssues, countUploadCompletes,
         List.filter_cons]
       try push_cast
       try ring)

/-- The download analogue of `runTransfers_upload_count`. -/
theorem runTransfers_download_count (t : List TransferEvent) :
    ∀ s : ClientState, (runTransfers s t).counters.download
      = s.counters.download + countDownloadIssues t - countDownloadCompletes t := by
  induction t with
  | nil => intro s; simp [runTransfers, countDownloadIssues, countDownloadCompletes]
  | cons e rest ih =>
    intro s
    cases e <;>
      (simp only [runTransfers, transferStep]
       rw [ih]
       simp [sftpUploadIssue, sftpUploadComplete, sftpDownloadIssue,
         sftpDownloadComplete, countDownloadIssues, countDownloadCompletes,
         List.filter_cons]
       try push_cast
       try ring)

instance decidableCausalHistory (t : List TransferEvent) :
    Decidable (CausalHistory t) := by
  unfold CausalHistory
  exact List.decidableBAll _ _

/-- A causal history's balance conditions hold for prefixes of every length.
-/
theorem causalHistory_all {t : List TransferEvent} (hc : CausalHistory t)
    (n : Nat) :
    countUploadCompletes (t.take n) ≤ countUploadIssues (t.take n) ∧
    countDownloadCompletes (t.take n) ≤ countDownloadIssues (t.take n) := by
  rcases le_or_lt n t.length with h | h
  · exact hc n (by simp [List.mem_range]; omega)
  · rw [List.take_of_length_le (le_of_lt h)]
    have h2 := hc t.length (by simp [List.mem_range])
    rwa [List.take_length] at h2

/-- C4: each issued upload (download) command increments its counter by one
immediately before issue and its completion callback decrements it by one,
identically on the success and the failure path; hence over any causal
interleaved history starting from zero counters, each counter equals issued
minus completed commands of its kind, is never negative at any point, and
returns to zero once every in-flight transfer has completed. -/
theorem transfer_counters_balanced (s : ClientState) (t : List TransferEvent)
    (hu : s.counters.upload = 0) (hd : s.counters.download = 0)
    (hc : CausalHistory t) :
    (∀ s2 : ClientState,
      (sftpUploadIssue s2).counters.upload = s2.counters.upload + 1 ∧
      (sftpUploadComplete s2).counters.upload = s2.counters.upload - 1 ∧
      (sftpDownloadIssue s2).counters.download = s2.counters.download + 1 ∧
      (sftpDownloadComplete s2).counters.download = s2.counters.download - 1) ∧
    (∀ s2 : ClientState, ∀ e e2 : Option Err,
      transferStep s2 (TransferEvent.uploadComplete e)
        = transferStep s2 (TransferEvent.uploadComplete e2) ∧
      transferStep s2 (TransferEvent.downloadComplete e)
        = transferStep s2 (TransferEvent.downloadComplete e2)) ∧
    (runTransfers s t).counters.upload
      = (countUploadIssues t : ℤ) - countUploadCompletes t ∧
    (runTransfers s t).counters.download
      = (countDownloadIssues t : ℤ) - countDownloadCompletes t ∧
    (∀ n : Nat, 0 ≤ (runTransfers s (t.take n)).counters.upload ∧
      0 ≤ (runTransfers s (t.take n)).counters.download) ∧
    (countUploadCompletes t = countUploadIssues t →
      (runTransfers s t).counters.upload = 0) ∧
    (countDownloadCompletes t = countDownloadIssues t →
      (runTransfers s t).counters.download = 0) := by
  have hup := runTransfers_upload_count t s
  have hdn := runTransfers_download_count t s
  rw [hu] at hup
  rw [hd] at hdn
  refine ⟨?_, ?_, ?_, ?_, ?_, ?_, ?_⟩
  · intro s2
    simp [sftpUploadIssue, sftpUploadComplete, sftpDownloadIssue,
      sftpDownloadComplete]
  · intro s2 e e2
    simp [transferStep]
  · omega
  · omega
  · intro n
    have hbal := causalHistory_all hc n
    have hupn := runTransfers_upload_count (t.take n) s
    have hdnn := runTransfers_download_count (t.take n) s
    rw [hu] at hupn
    rw [hd] at hdnn
    omega
  · intro heq
    omega
  · intro heq
    omega

/-- A causal interleaved history: two uploads and one download, with one
upload failing, all completing. -/
def sampleTrace : List TransferEvent :=
  [TransferEvent.uploadIssue, TransferEvent.downloadIssue,
   TransferEvent.uploadComplete (some "write error"), TransferEvent.uploadIssue,
   TransferEvent.uploadComplete none, TransferEvent.downloadComplete none]

theorem transfer_counters_balanced_witness :
    sampleFresh.counters.upload = 0 ∧
    sampleFresh.counters.download = 0 ∧
    CausalHistory sampleTrace ∧
    (runTransfers sampleFresh sampleTrace).counters.upload = 0 ∧
    (runTransfers sampleFresh sampleTrace).counters.download = 0 :=
  ⟨by decide, by decide, by decide,
    (transfer_counters_balanced sampleFresh sampleTrace
        (by decide) (by decide) (by decide)).2.2.2.2.2.1 (by decide),
    (transfer_counters_balanced sampleFresh sampleTrace
        (by decide) (by decide) (by decide)).2.2.2.2.2.2 (by decide)⟩

/-- Modelled from the spec (§4's Command/Response pattern and §7's
propagation policy): the caller-visible notification sequence of one
asynchronous operation whose completion delivered `(error, result)` —
the optional trailing callback is invoked with that error (and the response
value the operation echoes, `cbArg`) BEFORE the promise settles, and the
promise then rejects with the error when one is present and resolves with
`result` otherwise, so no error is dropped. -/
def DualNotification {V : Type} (cbPresent : Bool) (error : Option Err)
    (cbArg : Option V) (result : V) (notifs : List (Notif V)) : Prop :=
  match error with
  | some e =>
    notifs = (if cbPresent then [Notif.cb (some e) cbArg] else []) ++ [Notif.reject e]
  | none =>
    notifs = (if cbPresent then [Notif.cb none cbArg] else []) ++ [Notif.resolve result]

/-- The shared completion tail satisfies the dual-notification contract. -/
theorem dualNotification_completionNotifs {V : Type} (cbPresent : Bool)
    (error : Option Err) (cbArg : Option V) (result : V) :
    DualNotification cbPresent error cbArg result
      (completionNotifs cbPresent error cbArg result) := by
  cases error <;> simp [DualNotification, completionNotifs]

/-- C6: every asynchronous operation of the public API delivers its native
completion's `(error, result)` to the optional trailing callback and then
settles its promise accordingly — rejecting with the error exactly when one
is present — including the operations whose auto-open gate (`checkShell` /
`checkSFTP`) fails, whose callers receive the gate's error through both
channels.  (For operations not listed with an explicit failure conjunct the
gate is open or succeeds; `startShell`/`connectSFTP` invoke no native
completion at all on their already-open short-circuit paths.) -/
theorem dual_notification_all_ops (p : RNPlatform) (s : ClientState)
    (host username password privateKey command path oldPath newPath
      localFilePath remoteFilePath : String) (port permissions : Int)
    (passphrase : Option String) (ptyType : PtyType) (cbPresent : Bool)
    (random : ℚ) (error : Option Err) (response startResp : String)
    (lsResponse : LsResult) (startErr connErr : Option Err) (e : Err) :
    DualNotification cbPresent error (some response) response
      (execute s command cbPresent error response).notifs ∧
    (s.activeStream.shell = false →
      DualNotification cbPresent error (some response) response
        (startShell s ptyType cbPresent error response).notifs) ∧
    (s.activeStream.sftp = false →
      DualNotification cbPresent error none ()
        (connectSFTP s cbPresent error).notifs) ∧
    (s.activeStream.sftp = false →
      DualNotification cbPresent (some e) none ()
        (sftpUpload s localFilePath remoteFilePath cbPresent (some e) error).notifs) ∧
    DualNotification cbPresent error none (initialState host port username random)
      (connectWithKey p host port username privateKey passphrase cbPresent
        random error).notifs ∧
    DualNotification cbPresent error none (initialState host port username random)
      (connectWithPassword p host port username password cbPresent
        random error).notifs ∧
    (s.activeStream.shell = true →
      DualNotification cbPresent error (some response) response
        (writeToShell s command cbPresent startErr startResp error response).notifs) ∧
    DualNotification cbPresent error (some response) response
      (writeToShell s command cbPresent none startResp error response).notifs ∧
    (s.activeStream.shell = false →
      DualNotification cbPresent (some e) none response
        (writeToShell s command cbPresent (some e) startResp error response).notifs) ∧
    (s.activeStream.sftp = true →
      DualNotification cbPresent error (some lsResponse) lsResponse
        (sftpLs s path cbPresent connErr error lsResponse).notifs) ∧
    DualNotification cbPresent error (some lsResponse) lsResponse
      (sftpLs s path cbPresent none error lsResponse).notifs ∧
    (s.activeStream.sftp = false →
      DualNotification cbPresent (some e) none lsResponse
        (sftpLs s path cbPresent (some e) error lsResponse).notifs) ∧
    (s.activeStream.sftp = true →
      DualNotification cbPresent error none ()
        (sftpRename s oldPath newPath cbPresent connErr error).notifs) ∧
    DualNotification cbPresent error none ()
      (sftpRename s oldPath newPath cbPresent none error).notifs ∧
    (s.activeStream.sftp = false →
      DualNotification cbPresent (some e) none ()
        (sftpRename s oldPath newPath cbPresent (some e) error).notifs) ∧
    (s.activeStream.sftp = true →
      DualNotification cbPresent error none ()
        (sftpMkdir s path cbPresent connErr error).notifs) ∧
    DualNotification cbPresent error none ()
      (sftpMkdir s path cbPresent none error).notifs ∧
    (s.activeStream.sftp = false →
      DualNotification cbPresent (some e) none ()
        (sftpMkdir s path cbPresent (some e) error).notifs) ∧
    (s.activeStream.sftp = true →
      DualNotification cbPresent error none ()
        (sftpRm s path cbPresent connErr error).notifs) ∧
    DualNotification cbPresent error none ()
      (sftpRm s path cbPresent none error).notifs ∧
    (s.activeStream.sftp = false →
      DualNotification cbPresent (some e) none ()
        (sftpRm s path cbPresent (some e) error).notifs) ∧
    (s.activeStream.sftp = true →
      DualNotification cbPresent error none ()
        (sftpRmdir s path cbPresent connErr error).notifs) ∧
    DualNotification cbPresent error none ()
      (sftpRmdir s path cbPresent none error).notifs ∧
    (s.activeStream.sftp = false →
      DualNotification cbPresent (some e) none ()
        (sftpRmdir s path cbPresent (some e) error).notifs) ∧
    (s.activeStream.sftp = true →
      DualNotification cbPresent error none ()
        (sftpChmod s path permissions cbPresent connErr error).notifs) ∧
    DualNotification cbPresent error none ()
      (sftpChmod s path permissions cbPresent none error).notifs ∧
    (s.activeStream.sftp = false →
      DualNotification cbPresent (some e) none ()
        (sftpChmod s path permissions cbPresent (some e) error).notifs) ∧
    (s.activeStream.sftp = true →
      DualNotification cbPresent error none ()
        (sftpUpload s localFilePath remoteFilePath cbPresent connErr error).notifs) ∧
    DualNotification cbPresent error none ()
      (sftpUpload s localFilePath remoteFilePath cbPresent none error).notifs ∧
    (s.activeStream.sftp = true →
      DualNotification cbPresent error (some response) response
        (sftpDownload s remoteFilePath localFilePath cbPresent connErr error
          response).notifs) ∧
    DualNotification cbPresent error (some response) response
      (sftpDownload s remoteFilePath localFilePath cbPresent none error
        response).notifs ∧
    (s.activeStream.sftp = false →
      DualNotification cbPresent (some e) none response
        (sftpDownload s remoteFilePath localFilePath cbPresent (some e) error
          response).notifs) := by
  refine ⟨dualNotification_completionNotifs _ _ _ _, ?_, ?_, ?_,
    dualNotification_completionNotifs _ _ _ _,
    dualNotification_completionNotifs _ _ _ _,
    ?_, ?_, ?_, ?_, ?_, ?_, ?_, ?_, ?_, ?_, ?_, ?_, ?_, ?_, ?_, ?_, ?_, ?_,
    ?_, ?_, ?_, ?_, ?_, ?_, ?_, ?_⟩
  · intro h
    simp only [startShell, h, Bool.false_eq_true, if_false]
    exact dualNotification_completionNotifs _ _ _ _
  · intro h
    simp only [connectSFTP, h, Bool.false_eq_true, if_false]
    exact dualNotification_completionNotifs _ _ _ _
  · intro h
    simp [sftpUpload, checkSFTP, connectSFTP, h, DualNotification]
  · intro h
    simp only [writeToShell, checkShell, h, if_true]
    exact dualNotification_completionNotifs _ _ _ _
  · by_cases h : s.activeStream.shell <;>
      (simp [writeToShell, checkShell, startShell, h]
       exact dualNotification_completionNotifs _ _ _ _)
  · intro h
    simp [writeToShell, checkShell, startShell, h, DualNotification]
  · intro h
    simp only [sftpLs, checkSFTP, h, if_true]
    exact dualNotification_completionNotifs _ _ _ _
  · by_cases h : s.activeStream.sftp <;>
      (simp [sftpLs, checkSFTP, connectSFTP, h]
       exact dualNotification_completionNotifs _ _ _ _)
  · intro h
    simp [sftpLs, checkSFTP, connectSFTP, h, DualNotification]
  · intro h
    simp only [sftpRename, checkSFTP, h, if_true]
    exact dualNotification_completionNotifs _ _ _ _
  · by_cases h : s.activeStream.sftp <;>
      (simp [sftpRename, checkSFTP, connectSFTP, h]
       exact dualNotification_completionNotifs _ _ _ _)
  · intro h
    simp [sftpRename, checkSFTP, connectSFTP, h, DualNotification]
  · intro h
    simp only [sftpMkdir, checkSFTP, h, if_true]
    exact dualNotification_completionNotifs _ _ _ _
  · by_cases h : s.activeStream.sftp <;>
      (simp [sftpMkdir, checkSFTP, connectSFTP, h]
       exact dualNotification_completionNotifs _ _ _ _)
  · intro h
    simp [sftpMkdir, checkSFTP, connectSFTP, h, DualNotification]
  · intro h
    simp only [sftpRm, checkSFTP, h, if_true]
    exact dualNotification_completionNotifs _ _ _ _
  · by_cases h : s.activeStream.sftp <;>
      (simp [sftpRm, checkSFTP, connectSFTP, h]
       exact dualNotification_completionNotifs _ _ _ _)
  · intro h
    simp [sftpRm, checkSFTP, connectSFTP, h, DualNotification]
  · intro h
    simp only [sftpRmdir, checkSFTP, h, if_true]
    exact dualNotification_completionNotifs _ _ _ _
  · by_cases h : s.activeStream.sftp <;>
      (simp [sftpRmdir, checkSFTP, connectSFTP, h]
       exact dualNotification_completionNotifs _ _ _ _)
  · intro h
    simp [sftpRmdir, checkSFTP, connectSFTP, h, DualNotification]
  · intro h
    simp only [sftpChmod, checkSFTP, h, if_true]
    exact dualNotification_completionNotifs _ _ _ _
  · by_cases h : s.activeStream.sftp <;>
      (simp [sftpChmod, checkSFTP, connectSFTP, h]
       exact dualNotification_completionNotifs _ _ _ _)
  · intro h
    simp [sftpChmod, checkSFTP, connectSFTP, h, DualNotification]
  · intro h
    simp only [sftpUpload, checkSFTP, h, if_true]
    exact dualNotification_completionNotifs _ _ _ _
  · by_cases h : s.activeStream.sftp <;>
      (simp [sftpUpload, checkSFTP, connectSFTP, h]
       exact dualNotification_completionNotifs _ _ _ _)
  · intro h
    simp only [sftpDownload, checkSFTP, h, if_true]
    exact dualNotification_completionNotifs _ _ _ _
  · by_cases h : s.activeStream.sftp <;>
      (simp [sftpDownload, checkSFTP, connectSFTP, h]
       exact dualNotification_completionNotifs _ _ _ _)
  · intro h
    simp [sftpDownload, checkSFTP, connectSFTP, h, DualNotification]

theorem dual_notification_all_ops_witness :
    DualNotification true (some "boom") (some "out") "out"
      ((execute sampleFresh "ls -l" true (some "boom") "out").notifs) ∧
    sampleFresh.activeStream.shell = false ∧
    DualNotification true none (some "banner") "banner"
      ((startShell sampleFresh PtyType.xterm true none "banner").notifs) ∧
    sampleFresh.activeStream.sftp = false ∧
    DualNotification true (some "no sftp") none ()
      ((sftpUpload sampleFresh "/a" "/b" true (some "no sftp") none).notifs) :=
  ⟨(dual_notification_all_ops RNPlatform.android sampleFresh "h" "u" "pw" "pk"
      "ls -l" "/p" "/o" "/n" "/a" "/b" 22 511 none PtyType.xterm true 0
      (some "boom") "out" "sr" ⟨"f", false, "", "", 0, 0, 0, 0⟩ none none
      "no sftp").1,
   by decide,
   (dual_notification_all_ops RNPlatform.android sampleFresh "h" "u" "pw" "pk"
      "ls -l" "/p" "/o" "/n" "/a" "/b" 22 511 none PtyType.xterm true 0
      none "banner" "sr" ⟨"f", false, "", "", 0, 0, 0, 0⟩ none none
      "no sftp").2.1 (by decide),
   by decide,
   (dual_notification_all_ops RNPlatform.android sampleFresh "h" "u" "pw" "pk"
      "ls -l" "/p" "/o" "/n" "/a" "/b" 22 511 none PtyType.xterm true 0
      none "out" "sr" ⟨"f", false, "", "", 0, 0, 0, 0⟩ none none
      "no sftp").2.2.2.1 (by decide)⟩

/-- C9: the claim's uniqueness half fails in the code — `getRandomClientKey`
offers no uniqueness guarantee at all: the two distinct `Math.random()`
draws `0` and `1/131072` both produce the key `"0000"`, so two coordinators
constructed from them are live with equal correlation keys. -/
theorem correlation_key_collision :
    getRandomClientKey 0 = getRandomClientKey (1 / 131072) ∧
    (0 : ℚ) ≠ 1 / 131072 ∧
    (initialState "host-a" 22 "alice" 0).key
      = (initialState "host-b" 2222 "bob" (1 / 131072)).key := by
  have hk0 : getRandomClientKey 0 = "0000" := by
    have h1 : ((1 + (0 : ℚ)) * 0x10000) = 65536 := by norm_num
    have h2 : ⌊(65536 : ℚ)⌋ = 65536 := by norm_num
    unfold getRandomClientKey
    rw [h1, h2]
    decide
  have hk1 : getRandomClientKey (1 / 131072) = "0000" := by
    have h1 : ((1 + (1 / 131072 : ℚ)) * 0x10000) = 131073 / 2 := by norm_num
    have h2 : ⌊(131073 / 2 : ℚ)⌋ = 65536 := by
      rw [Int.floor_eq_iff]
      norm_num
    unfold getRandomClientKey
    rw [h1, h2]
    decide
  refine ⟨hk0.trans hk1.symm, by norm_num, ?_⟩
  show getRandomClientKey 0 = getRandomClientKey (1 / 131072)
  exact hk0.trans hk1.symm

end SSHClient
